import Mathlib

/-!
Verification of the profile routes and application middleware of an
Express-based service (nadktk/homework-5): the account-deletion
orchestrator (`router.delete` in src/routes/api/v1/profile.js), the
error-handling middleware, the CSRF layer, session expiry, and the
attach-payment-card operation (`router.put` on /card).

Machine integers do not occur; all JS numbers involved are small naturals.
Stateful route handlers are embedded as pure functions from an environment
describing the outcomes of the external calls (Sequelize, Mongoose, GCS,
Stripe) to an event trace plus a result, mirroring the `await` sequencing
of the source: a rejected `await` propagates as `Except.error` to the
error middleware via `express-async-handler`.
-/

/-- The mutable response object, reduced to its observable parts:
status code, body, the cookies set on it, and how many times a send
was performed. -/
structure Resp where
  status : Nat
  body : String
  cookies : List (String × String)
  sends : Nat
deriving DecidableEq

/-- A fresh response object: Express initialises `res.statusCode` to 200
and nothing has been sent. -/
def resp0 : Resp := ⟨200, "", [], 0⟩

/-- A JavaScript error value as the error middleware consumes it. -/
structure JsError where
  message : String
  stack : String
deriving DecidableEq

/-- One entry written through `errorLogger.log`. -/
structure LogEntry where
  level : String
  message : String
  metadata : String
  label : String
deriving DecidableEq

/-- The error-handling middleware of the application (src/unnamed/part_000):
`if (res.statusCode === 200) { res.status(500).send({ error: err.message }) }`
followed by `errorLogger.log({ message: err.message, metadata: err.stack })`.
The sent body is modelled as the string `"error: " ++ err.message`,
keeping exactly the information the JSON payload `{ error: err.message }`
carries. -/
def errorMiddleware (err : JsError) (res : Resp) : Resp × LogEntry :=
  (if res.status == 200 then
    { res with status := 500, body := "error: " ++ err.message, sends := res.sends + 1 }
   else res,
   ⟨"error", err.message, err.stack, "express"⟩)

/-- A user row of the relational store, as `req.user` exposes it. -/
structure UserRecord where
  id : Nat
  email : String
  firstName : String
  lastName : String
  picture : Option String
  stripe_customer_id : Option String
  stripe_card_id : Option String
deriving DecidableEq

/-- Observable events of a run of the deletion route, in the order the
source performs them. -/
inductive Ev where
  | snapshotProfile (pic : Option String)
  | snapshotArticles (urls : List String)
  | destroyUser (id : Nat)
  | deleteBlob (url : String)
  | deleteDocs (authorId : Nat)
  | logInfo (msg : String)
  | logout (id : Nat)
deriving DecidableEq

/-- Outcomes of the external calls the deletion route performs:
the rows `Article.findAll` returns (their non-null `picture` columns),
and whether each awaited call resolves or rejects. -/
structure DeleteEnv where
  articlesPictures : List String
  destroyOk : Bool
  deleteFileOk : String → Bool
  deleteManyOk : Bool
  logoutOk : Bool

/-- Result of a run of the deletion route handler: the trace of performed
external operations, whether the relational record is still present
afterwards, and the handler result (`Except.error` models a rejected
`await` propagating through `express-async-handler`). -/
structure DeleteOutcome where
  trace : List Ev
  recordPresent : Bool
  result : Except String Unit

/-- Stage 4-5 of the deletion route:
`await ArticlesView.deleteMany({ authorId: id })`, then the
`infoLogger.log` success entry, then `await authService.logout(req, res, next)`. -/
def docsStage (u : UserRecord) (env : DeleteEnv) (t : List Ev) : DeleteOutcome :=
  let t4 := t ++ [Ev.deleteDocs u.id]
  if env.deleteManyOk = false then
    { trace := t4, recordPresent := false, result := Except.error "deleteMany failed" }
  else
    let t5 := t4 ++ [Ev.logInfo ("User " ++ toString u.id ++ " was successfully deleted"),
                     Ev.logout u.id]
    if env.logoutOk = false then
      { trace := t5, recordPresent := false, result := Except.error "logout failed" }
    else
      { trace := t5, recordPresent := false, result := Except.ok () }

/-- Stage 3b of the deletion route:
`await Promise.all(articlesPictures.map((url) => deleteFile(url)))`.
`Promise.all` starts every `deleteFile(url)` call before awaiting, so every
URL's deletion is attempted (all appear in the trace), and the combined
promise rejects with the first failure, in which case the subsequent
stages do not run. An empty snapshot skips the call (`if (articlesPictures.length)`). -/
def deleteArticlesStage (u : UserRecord) (env : DeleteEnv) (t : List Ev) : DeleteOutcome :=
  let pics := env.articlesPictures
  let t3 := t ++ pics.map Ev.deleteBlob
  match pics.find? (fun q => !env.deleteFileOk q) with
  | some q =>
    { trace := t3, recordPresent := false, result := Except.error ("deleteFile failed: " ++ q) }
  | none => docsStage u env t3

/-- The deletion route handler (`router.delete('/')` in
src/routes/api/v1/profile.js), entered with `present` recording whether
the relational row still exists. It snapshots `req.user.picture` and the
authored articles' pictures, then `await req.user.destroy()` (a plain SQL
DELETE: it resolves whether or not the row was still present), then
deletes the profile-picture blob if any (`await deleteFile`, so a
rejection stops the run), then the article-picture blobs, then the
derived documents, logs, and logs out. -/
def deleteHandler (present : Bool) (u : UserRecord) (env : DeleteEnv) : DeleteOutcome :=
  let t1 : List Ev := [Ev.snapshotProfile u.picture,
                       Ev.snapshotArticles env.articlesPictures,
                       Ev.destroyUser u.id]
  if env.destroyOk = false then
    { trace := t1, recordPresent := present, result := Except.error "destroy failed" }
  else
    match u.picture with
    | some p =>
      if env.deleteFileOk p = false then
        { trace := t1 ++ [Ev.deleteBlob p], recordPresent := false,
          result := Except.error ("deleteFile failed: " ++ p) }
      else
        deleteArticlesStage u env (t1 ++ [Ev.deleteBlob p])
    | none => deleteArticlesStage u env t1

/-- Modelled from the spec: `authService.logout` (src/services/auth-service.js
is not under src/) destroys the session record and sends one response to
the caller. -/
def logoutRespond (r : Resp) : Resp :=
  { r with body := "session destroyed", sends := r.sends + 1 }

/-- The deletion route as the caller observes it: a completed handler run
responds through `authService.logout`; a rejected `await` is caught by
`express-async-handler` and handed to the error middleware with the
response still untouched (status 200, nothing sent). -/
def deleteRoute (present : Bool) (u : UserRecord) (env : DeleteEnv) : DeleteOutcome × Resp :=
  let o := deleteHandler present u env
  match o.result with
  | Except.ok _ => (o, logoutRespond resp0)
  | Except.error e => (o, (errorMiddleware ⟨e, ""⟩ resp0).1)

/-- Position of each event kind in the orchestration order of the source:
snapshots, relational destroy, blob deletions, document deletion, success
log, session teardown. -/
def evRank : Ev → Nat
  | Ev.snapshotProfile _ => 0
  | Ev.snapshotArticles _ => 1
  | Ev.destroyUser _ => 2
  | Ev.deleteBlob _ => 3
  | Ev.deleteDocs _ => 4
  | Ev.logInfo _ => 5
  | Ev.logout _ => 6

/-- A trace respects the orchestration order when event ranks never
decrease along it. -/
def ranked (t : List Ev) : Prop :=
  t.Pairwise (fun a b => evRank a ≤ evRank b)

/-- The session cookie lifetime from `sessionConfig` (src/unnamed/part_000):
`cookie: { maxAge: 48 * 3600 * 1000 }`, in milliseconds. -/
def sessionCookieMaxAgeMs : Nat := 48 * 3600 * 1000

/-- A session record held in the shared store. -/
structure SessRecord where
  identityId : Nat
  createdAt : Nat
  expiresAt : Nat
deriving DecidableEq

/-- Session creation: `connect-redis` derives the record's time to live
from the configured cookie `maxAge`, so a record created at `now` expires
at `now + sessionCookieMaxAgeMs`. -/
def createSession (identityId now : Nat) : SessRecord :=
  ⟨identityId, now, now + sessionCookieMaxAgeMs⟩

/-- Loading from the store: Redis evicts a key once its time to live has
elapsed, so a load at or after `expiresAt` finds nothing. -/
def storeLoad (now : Nat) (r : SessRecord) : Option SessRecord :=
  if now < r.expiresAt then some r else none

/-- Modelled from the spec: the Auth Gate (`isLoggedIn` from src/passport.js,
which is not under src/) re-checks the absolute session expiry on the
loaded record, rejecting a session past `expiresAt` even when the store
has not evicted it yet. -/
def isLoggedIn (now : Nat) (loaded : Option SessRecord) : Bool :=
  match loaded with
  | none => false
  | some r => decide (now < r.expiresAt)

/-- A CSRF token as `csurf` issues it: a salt together with a MAC of the
session-bound secret and the salt. -/
structure CsrfToken where
  salt : String
  mac : String
deriving DecidableEq

/-- Modelled from the spec: the MAC `csurf` computes over the
session-bound secret and a salt (the CSRF Guard derives tokens from a
per-session secret). -/
def tokenMac (secret salt : String) : String := secret ++ "." ++ salt

/-- Modelled from the spec: `req.csrfToken()` mints a token from the
session's secret and a fresh salt. Any token so minted verifies against
the same secret. -/
def makeToken (secret salt : String) : CsrfToken := ⟨salt, tokenMac secret salt⟩

/-- Modelled from the spec: `csurf` verification of a supplied token
against the session's secret; a missing token never verifies. -/
def verifyToken (secret : String) (t : Option CsrfToken) : Bool :=
  match t with
  | none => false
  | some tok => tok.mac == tokenMac secret tok.salt

/-- Request methods relevant to the middleware chain. -/
inductive Method where
  | GET
  | HEAD
  | OPTIONS
  | POST
  | PUT
  | DELETE
deriving DecidableEq

/-- Modelled from the spec: the methods `csurf` does not verify
(its default ignore list); all state-changing methods are verified. -/
def csrfIgnores : Method → Bool
  | Method.GET => true
  | Method.HEAD => true
  | Method.OPTIONS => true
  | _ => false

/-- The session state `csurf` and passport read: the CSRF secret stored
in the session and the authenticated identity, if any. -/
structure Sess where
  csrfSecret : String
  identityId : Option Nat
deriving DecidableEq

/-- An incoming request, reduced to what the middleware chain inspects:
its method, the CSRF token it supplies (if any), and the fresh salt
`req.csrfToken()` would use for this request. -/
structure PRequest where
  method : Method
  suppliedToken : Option CsrfToken
  freshSalt : String

/-- What a matched route handler produced. -/
inductive RouteOut where
  | ok (status : Nat) (body : String)
  | err (msg : String)
  | noMatch

/-- Result of dispatching the routers mounted at `/api/v1/`: possibly
updated application state, the session afterwards (`none` when the route
logged out and destroyed it), and the handler outcome. -/
structure Routed (σ : Type) where
  st : σ
  sess : Option Sess
  out : RouteOut

/-- Result of the whole middleware chain on one request. -/
structure HResult (σ : Type) where
  st : σ
  sess : Option Sess
  resp : Resp

/-- The catch-all `app.get('*')` handler:
`https.get(process.env.FRONTEND_URL, (response) => response.pipe(res))`.
Only the success callback is installed; when the upstream request fails,
no listener writes to `res`, so no response is produced. -/
def frontendFallback (upstream : Except String String) (res : Resp) : Resp :=
  match upstream with
  | Except.ok b => { res with body := b, sends := res.sends + 1 }
  | Except.error _ => res

/-- The middleware chain of src/unnamed/part_000 on one request, with the
mounted routers abstracted as `routes`: body parsing, session loading,
`csrf()` (whose rejection calls `next(err)`, skipping every remaining
plain middleware, so the error middleware answers with the response still
fresh), the `app.all` middleware storing a freshly minted token in the
XSRF-TOKEN cookie, passport, the `/api/v1/` routers, the `app.get('*')`
frontend proxy for unmatched GETs, Express' default 404 for other
unmatched requests, and the error middleware for a handler rejection. -/
def handleRequest {σ : Type} (routes : PRequest → Sess → σ → Routed σ)
    (upstream : Except String String) (req : PRequest) (sess : Sess) (st : σ) :
    HResult σ :=
  if csrfIgnores req.method = false ∧ verifyToken sess.csrfSecret req.suppliedToken = false then
    ⟨st, some sess, (errorMiddleware ⟨"invalid csrf token", "csurf"⟩ resp0).1⟩
  else
    let tok := makeToken sess.csrfSecret req.freshSalt
    let resp1 : Resp := { resp0 with cookies := [("XSRF-TOKEN", tok.salt ++ ";" ++ tok.mac)] }
    let r := routes req sess st
    match r.out with
    | RouteOut.ok sc b =>
      ⟨r.st, r.sess, { resp1 with status := sc, body := b, sends := resp1.sends + 1 }⟩
    | RouteOut.err m => ⟨r.st, r.sess, (errorMiddleware ⟨m, ""⟩ resp1).1⟩
    | RouteOut.noMatch =>
      if req.method = Method.GET then
        ⟨st, some sess, frontendFallback upstream resp1⟩
      else
        ⟨st, some sess, { resp1 with status := 404, sends := resp1.sends + 1 }⟩

/-- Handling a sequence of requests for one session: each request runs
through the full middleware chain; once a route has destroyed the
session, later requests of this session are out of scope and change
nothing. -/
def runRequests {σ : Type} (routes : PRequest → Sess → σ → Routed σ)
    (upstream : Except String String) :
    List PRequest → Option Sess → σ → Option Sess × σ
  | [], sess, st => (sess, st)
  | _ :: rest, none, st => runRequests routes upstream rest none st
  | r :: rest, some s, st =>
    let h := handleRequest routes upstream r s st
    runRequests routes upstream rest h.sess h.st

/-- A Stripe call the card route performs. -/
inductive StripeCall where
  | customer (email : String)
  | card (token : String) (customerId : String)
deriving DecidableEq

/-- Outcomes of the Stripe service calls (success path):
`createCustomer(email) -> id` and `createCard(token, customerId) -> id`. -/
structure StripeEnv where
  createCustomer : String → String
  createCard : String → String → String

/-- JavaScript falsiness of the stored customer reference, as
`if (!customerId)` tests it: a missing column or an empty string. -/
def jsFalsyStr : Option String → Bool
  | none => true
  | some s => s == ""

/-- `user.update(updateData)`: only the fields present in `updateData`
are written. -/
structure UpdateData where
  stripe_customer_id : Option String
  stripe_card_id : Option String

/-- Apply an `updateData` object to the user row. -/
def applyUpdate (u : UserRecord) (d : UpdateData) : UserRecord :=
  { u with
    stripe_customer_id :=
      match d.stripe_customer_id with
      | some c => some c
      | none => u.stripe_customer_id,
    stripe_card_id :=
      match d.stripe_card_id with
      | some c => some c
      | none => u.stripe_card_id }

/-- The card route handler (`router.put('/card')` in
src/routes/api/v1/profile.js): reads `user.stripe_customer_id`; when it
is falsy, calls `createCustomer(user.email)` and records the new id in
`updateData`; then calls `createCard(token, customerId)`, records the
card id, and applies `user.update(updateData)`. Returns the updated row
and the list of Stripe calls made. -/
def cardHandler (u : UserRecord) (token : String) (env : StripeEnv) :
    UserRecord × List StripeCall :=
  if jsFalsyStr u.stripe_customer_id then
    let cid := env.createCustomer u.email
    let cardId := env.createCard token cid
    (applyUpdate u ⟨some cid, some cardId⟩,
     [StripeCall.customer u.email, StripeCall.card token cid])
  else
    let cid := u.stripe_customer_id.getD ""
    let cardId := env.createCard token cid
    (applyUpdate u ⟨none, some cardId⟩, [StripeCall.card token cid])

lemma pairwise_trivial {α : Type} {R : α → α → Prop} (h : ∀ a b, R a b) :
    ∀ l : List α, l.Pairwise R
  | [] => List.Pairwise.nil
  | x :: xs => List.Pairwise.cons (fun y _ => h x y) (pairwise_trivial h xs)

lemma ranked_append (t s : List Ev) (n : Nat) (ht : ranked t) (hs : ranked s)
    (hbt : ∀ e ∈ t, evRank e ≤ n) (hbs : ∀ e ∈ s, n ≤ evRank e) : ranked (t ++ s) := by
  refine List.pairwise_append.mpr ⟨ht, hs, ?_⟩
  intro a ha b hb
  exact le_trans (hbt a ha) (hbs b hb)

lemma docsStage_ranked (u : UserRecord) (env : DeleteEnv) (t : List Ev)
    (ht : ranked t) (hb : ∀ e ∈ t, evRank e ≤ 3) :
    ranked (docsStage u env t).trace := by
  have h4 : ranked (t ++ [Ev.deleteDocs u.id]) := by
    refine ranked_append t _ 3 ht ?_ hb ?_
    · simp [ranked]
    · intro e he
      simp only [List.mem_singleton] at he
      subst he
      simp [evRank]
  have hb4 : ∀ e ∈ t ++ [Ev.deleteDocs u.id], evRank e ≤ 4 := by
    intro e he
    rcases List.mem_append.mp he with h | h
    · exact le_trans (hb e h) (by omega)
    · simp only [List.mem_singleton] at h
      subst h
      simp [evRank]
  unfold docsStage
  split
  · exact h4
  · split
    · refine ranked_append _ _ 4 h4 ?_ hb4 ?_
      · simp [ranked, evRank]
      · intro e he
        rcases List.mem_cons.mp he with h | h
        · subst h; simp [evRank]
        · simp only [List.mem_singleton] at h
          subst h
          simp [evRank]
    · refine ranked_append _ _ 4 h4 ?_ hb4 ?_
      · simp [ranked, evRank]
      · intro e he
        rcases List.mem_cons.mp he with h | h
        · subst h; simp [evRank]
        · simp only [List.mem_singleton] at h
          subst h
          simp [evRank]

lemma deleteArticlesStage_ranked (u : UserRecord) (env : DeleteEnv) (t : List Ev)
    (ht : ranked t) (hb : ∀ e ∈ t, evRank e ≤ 3) :
    ranked (deleteArticlesStage u env t).trace := by
  have ht3 : ranked (t ++ env.articlesPictures.map Ev.deleteBlob) := by
    refine ranked_append t _ 3 ht ?_ hb ?_
    · unfold ranked
      refine List.pairwise_map.mpr ?_
      exact pairwise_trivial (fun a b => by simp [evRank]) _
    · intro e he
      rcases List.mem_map.mp he with ⟨q, _, hq⟩
      subst hq
      simp [evRank]
  have hb3 : ∀ e ∈ t ++ env.articlesPictures.map Ev.deleteBlob, evRank e ≤ 3 := by
    intro e he
    rcases List.mem_append.mp he with h | h
    · exact hb e h
    · rcases List.mem_map.mp h with ⟨q, _, hq⟩
      subst hq
      simp [evRank]
  unfold deleteArticlesStage
  dsimp only
  split
  · exact ht3
  · exact docsStage_ranked u env _ ht3 hb3

lemma snapshotTrace_ranked (u : UserRecord) (env : DeleteEnv) :
    ranked [Ev.snapshotProfile u.picture, Ev.snapshotArticles env.articlesPictures,
            Ev.destroyUser u.id] := by
  simp [ranked, evRank]

lemma snapshotTrace_bound (u : UserRecord) (env : DeleteEnv) :
    ∀ e ∈ [Ev.snapshotProfile u.picture, Ev.snapshotArticles env.articlesPictures,
           Ev.destroyUser u.id], evRank e ≤ 3 := by
  intro e he
  rcases List.mem_cons.mp he with h | he
  · subst h; simp [evRank]
  rcases List.mem_cons.mp he with h | he
  · subst h; simp [evRank]
  simp only [List.mem_singleton] at he
  subst he
  simp [evRank]

lemma docsStage_trace_eq (u : UserRecord) (env : DeleteEnv) (t : List Ev) :
    ∃ s, (docsStage u env t).trace = t ++ s := by
  unfold docsStage
  dsimp only
  split
  · exact ⟨_, rfl⟩
  · split
    · exact ⟨_, by rw [List.append_assoc]⟩
    · exact ⟨_, by rw [List.append_assoc]⟩

lemma deleteArticlesStage_trace_eq (u : UserRecord) (env : DeleteEnv) (t : List Ev) :
    ∃ s, (deleteArticlesStage u env t).trace = t ++ s := by
  unfold deleteArticlesStage
  dsimp only
  split
  · exact ⟨_, rfl⟩
  · obtain ⟨s, hs⟩ := docsStage_trace_eq u env (t ++ env.articlesPictures.map Ev.deleteBlob)
    exact ⟨_, by rw [hs, List.append_assoc]⟩

lemma deleteHandler_trace_eq (present : Bool) (u : UserRecord) (env : DeleteEnv) :
    ∃ s, (deleteHandler present u env).trace =
      [Ev.snapshotProfile u.picture, Ev.snapshotArticles env.articlesPictures,
       Ev.destroyUser u.id] ++ s := by
  unfold deleteHandler
  split
  · exact ⟨[], by simp⟩
  · split
    · split
      · exact ⟨_, rfl⟩
      · obtain ⟨s, hs⟩ := deleteArticlesStage_trace_eq u env _
        exact ⟨_, by rw [hs, List.append_assoc]⟩
    · exact deleteArticlesStage_trace_eq u env _

/-- C4: for every invocation of the deletion route, the two snapshot reads
(profile picture, article pictures) and the relational destroy open the
trace in that order, and along the whole trace the orchestration rank
never decreases: enumeration completes before any deletion, and the
relational destroy, the blob deletions, the document deletion and the
session teardown occur in that order. -/
theorem deletion_orchestrator_order (present : Bool) (u : UserRecord) (env : DeleteEnv) :
    (deleteHandler present u env).trace.take 3 =
      [Ev.snapshotProfile u.picture, Ev.snapshotArticles env.articlesPictures,
       Ev.destroyUser u.id] ∧
    ranked (deleteHandler present u env).trace := by
  constructor
  · obtain ⟨s, hs⟩ := deleteHandler_trace_eq present u env
    rw [hs]
    rfl
  · unfold deleteHandler
    split
    · exact snapshotTrace_ranked u env
    · split
      · split
        · refine ranked_append _ _ 3 (snapshotTrace_ranked u env) ?_
            (snapshotTrace_bound u env) ?_
          · simp [ranked]
          · intro e he
            simp only [List.mem_singleton] at he
            subst he
            simp [evRank]
        · refine deleteArticlesStage_ranked u env _ ?_ ?_
          · refine ranked_append _ _ 3 (snapshotTrace_ranked u env) ?_
              (snapshotTrace_bound u env) ?_
            · simp [ranked]
            · intro e he
              simp only [List.mem_singleton] at he
              subst he
              simp [evRank]
          · intro e he
            rcases List.mem_append.mp he with h | h
            · exact snapshotTrace_bound u env e h
            · simp only [List.mem_singleton] at h
              subst h
              simp [evRank]
      · exact deleteArticlesStage_ranked u env _ (snapshotTrace_ranked u env)
          (snapshotTrace_bound u env)

lemma docsStage_recordPresent (u : UserRecord) (env : DeleteEnv) (t : List Ev) :
    (docsStage u env t).recordPresent = false := by
  unfold docsStage
  dsimp only
  split
  · rfl
  · split <;> rfl

lemma deleteArticlesStage_recordPresent (u : UserRecord) (env : DeleteEnv) (t : List Ev) :
    (deleteArticlesStage u env t).recordPresent = false := by
  unfold deleteArticlesStage
  dsimp only
  split
  · rfl
  · exact docsStage_recordPresent u env _

lemma deleteHandler_recordPresent (present : Bool) (u : UserRecord) (env : DeleteEnv)
    (hd : env.destroyOk = true) : (deleteHandler present u env).recordPresent = false := by
  unfold deleteHandler
  dsimp only
  rw [if_neg (by simp [hd])]
  split
  · split
    · rfl
    · exact deleteArticlesStage_recordPresent u env _
  · exact deleteArticlesStage_recordPresent u env _

lemma deleteHandler_present_irrelevant (u : UserRecord) (env : DeleteEnv)
    (hd : env.destroyOk = true) (p1 p2 : Bool) :
    deleteHandler p1 u env = deleteHandler p2 u env := by
  unfold deleteHandler
  dsimp only
  rw [if_neg (by simp [hd]), if_neg (by simp [hd])]

lemma deleteArticlesStage_fail (u : UserRecord) (env : DeleteEnv) (t : List Ev)
    (p : String) (hmem : p ∈ env.articlesPictures) (hfail : env.deleteFileOk p = false) :
    (deleteArticlesStage u env t).trace = t ++ env.articlesPictures.map Ev.deleteBlob ∧
    ∃ e, (deleteArticlesStage u env t).result = Except.error e := by
  have hfind : (env.articlesPictures.find? (fun q => !env.deleteFileOk q)).isSome := by
    rw [List.find?_isSome]
    exact ⟨p, hmem, by simp [hfail]⟩
  unfold deleteArticlesStage
  dsimp only
  cases hf : env.articlesPictures.find? (fun q => !env.deleteFileOk q) with
  | none => rw [hf] at hfind; simp at hfind
  | some q => exact ⟨rfl, "deleteFile failed: " ++ q, rfl⟩

/-- The blob-deletion events of the profile-picture step: one `deleteFile`
call when a picture is set, none otherwise. -/
def profileBlobEvs (pic : Option String) : List Ev :=
  match pic with
  | some p => [Ev.deleteBlob p]
  | none => []

lemma deleteHandler_eq_stage (present : Bool) (u : UserRecord) (env : DeleteEnv)
    (hd : env.destroyOk = true)
    (hp : ∀ q, u.picture = some q → env.deleteFileOk q = true) :
    deleteHandler present u env =
      deleteArticlesStage u env
        ([Ev.snapshotProfile u.picture, Ev.snapshotArticles env.articlesPictures,
          Ev.destroyUser u.id] ++ profileBlobEvs u.picture) := by
  cases hu : u.picture with
  | none => simp [deleteHandler, hd, hu, profileBlobEvs]
  | some q => simp [deleteHandler, hd, hu, hp q hu, profileBlobEvs]

lemma deleteArticlesStage_ok (u : UserRecord) (env : DeleteEnv) (t : List Ev)
    (hfind : env.articlesPictures.find? (fun q => !env.deleteFileOk q) = none)
    (h2 : env.deleteManyOk = true) (h3 : env.logoutOk = true) :
    (deleteArticlesStage u env t).result = Except.ok () := by
  unfold deleteArticlesStage
  dsimp only
  rw [hfind]
  unfold docsStage
  dsimp only
  rw [if_neg (by simp [h2]), if_neg (by simp [h3])]

/-- The user fixture with no profile picture. -/
def uA : UserRecord := ⟨1, "a@mail", "fn", "ln", none, none, none⟩

/-- The user fixture with a profile picture. -/
def uB : UserRecord := ⟨2, "b@mail", "fn", "ln", some "pic.png", none, none⟩

/-- Environment fixture: two snapshotted article blobs, deleting "a" fails,
everything else succeeds. -/
def envFailA : DeleteEnv := ⟨["a", "b"], true, fun s => s != "a", true, true⟩

/-- Environment fixture: everything succeeds. -/
def envOk : DeleteEnv := ⟨["a", "b"], true, fun _ => true, true, true⟩

/-- Environment fixture: the document bulk deletion fails, everything else
succeeds. -/
def envDocsFail : DeleteEnv := ⟨[], true, fun _ => true, false, true⟩

/-- Environment fixture: two snapshotted article blobs, deleting the
profile-picture blob "pic.png" fails, everything else succeeds. -/
def envPicFail : DeleteEnv := ⟨["a", "b"], true, fun s => s != "pic.png", true, true⟩

lemma deleteHandler_picFail (present : Bool) (u : UserRecord) (env : DeleteEnv)
    (hd : env.destroyOk = true) (p : String) (hpic : u.picture = some p)
    (hfail : env.deleteFileOk p = false) :
    deleteHandler present u env =
      ⟨[Ev.snapshotProfile u.picture, Ev.snapshotArticles env.articlesPictures,
        Ev.destroyUser u.id, Ev.deleteBlob p], false,
       Except.error ("deleteFile failed: " ++ p)⟩ := by
  simp [deleteHandler, hd, hpic, hfail]

/-- C1 counterexample: with two snapshotted article blobs "a" and "b" where
deleting "a" fails, the document bulk deletion never runs and the handler
run ends in a propagated error rather than a collected per-item failure;
and when deleting the snapshotted profile-picture blob fails, the other
snapshotted blob "a" is never deleted either — both refuting the claim
that one blob failure prevents neither the other blob deletions nor the
document deletion. -/
theorem c1_blob_failure_counterexample :
    (Ev.deleteDocs 1 ∉ (deleteHandler true uA envFailA).trace ∧
     (deleteHandler true uA envFailA).result =
       Except.error ("deleteFile failed: " ++ "a")) ∧
    (Ev.deleteBlob "a" ∉ (deleteHandler true uB envPicFail).trace ∧
     Ev.deleteDocs 2 ∉ (deleteHandler true uB envPicFail).trace ∧
     (deleteHandler true uB envPicFail).result =
       Except.error ("deleteFile failed: " ++ "pic.png")) :=
  ⟨⟨by decide, rfl⟩, by decide, by decide, rfl⟩

/-- C1 (amended): after a successful relational destroy, a failing blob
deletion leaves the record deleted but propagates fail-fast instead of
being collected per item. When an article-batch blob fails (the profile
picture being absent or deleted fine), every blob of the batch is still
attempted — `Promise.all` starts them all — yet the document deletion
never runs and the handler ends in an error. When the profile-picture
blob fails, the run stops right there: no article blob is attempted at
all, no document deletion runs, and the handler ends in an error. -/
theorem c1_blob_failure_isolation (u : UserRecord) (env : DeleteEnv)
    (hd : env.destroyOk = true) :
    (∀ p, (∀ q, u.picture = some q → env.deleteFileOk q = true) →
      p ∈ env.articlesPictures → env.deleteFileOk p = false →
      (∀ q ∈ env.articlesPictures, Ev.deleteBlob q ∈ (deleteHandler true u env).trace) ∧
      (deleteHandler true u env).recordPresent = false ∧
      Ev.deleteDocs u.id ∉ (deleteHandler true u env).trace ∧
      (∃ e, (deleteHandler true u env).result = Except.error e)) ∧
    (∀ p, u.picture = some p → env.deleteFileOk p = false →
      (deleteHandler true u env).trace =
        [Ev.snapshotProfile u.picture, Ev.snapshotArticles env.articlesPictures,
         Ev.destroyUser u.id, Ev.deleteBlob p] ∧
      (deleteHandler true u env).recordPresent = false ∧
      (∀ q ∈ env.articlesPictures, q ≠ p → Ev.deleteBlob q ∉ (deleteHandler true u env).trace) ∧
      Ev.deleteDocs u.id ∉ (deleteHandler true u env).trace ∧
      (deleteHandler true u env).result = Except.error ("deleteFile failed: " ++ p)) := by
  constructor
  · intro p hp hmem hfail
    have hrec := deleteHandler_recordPresent true u env hd
    have hEq := deleteHandler_eq_stage true u env hd hp
    have hstage := deleteArticlesStage_fail u env
      ([Ev.snapshotProfile u.picture, Ev.snapshotArticles env.articlesPictures,
        Ev.destroyUser u.id] ++ profileBlobEvs u.picture) p hmem hfail
    refine ⟨?_, hrec, ?_, ?_⟩
    · intro q hq
      rw [hEq, hstage.1]
      exact List.mem_append_right _ (List.mem_map_of_mem _ hq)
    · rw [hEq, hstage.1]
      intro hmem2
      rcases List.mem_append.mp hmem2 with h | h
      · rcases List.mem_append.mp h with h' | h'
        · simp at h'
        · cases hu : u.picture with
          | none => rw [hu] at h'; simp [profileBlobEvs] at h'
          | some q => rw [hu] at h'; simp [profileBlobEvs] at h'
      · rcases List.mem_map.mp h with ⟨x, _, hx⟩
        exact Ev.noConfusion hx
    · rw [hEq]
      exact hstage.2
  · intro p hpic hfail
    have hEq := deleteHandler_picFail true u env hd p hpic hfail
    rw [hEq]
    refine ⟨rfl, rfl, ?_, ?_, rfl⟩
    · intro q hq hne hmem2
      simp at hmem2
      exact hne hmem2
    · intro hmem2
      simp at hmem2

/-- C1 witness: the amended isolation statement instantiated on both
failure shapes — the two-blob fixture where article blob "a" fails, and
the fixture where the profile-picture blob "pic.png" fails. -/
theorem c1_blob_failure_isolation_witness :
    (envFailA.destroyOk = true ∧ "a" ∈ envFailA.articlesPictures ∧
      envFailA.deleteFileOk "a" = false ∧
      envPicFail.destroyOk = true ∧ uB.picture = some "pic.png" ∧
      envPicFail.deleteFileOk "pic.png" = false) ∧
    ((∀ q ∈ envFailA.articlesPictures, Ev.deleteBlob q ∈ (deleteHandler true uA envFailA).trace) ∧
     (deleteHandler true uA envFailA).recordPresent = false ∧
     Ev.deleteDocs uA.id ∉ (deleteHandler true uA envFailA).trace ∧
     (∃ e, (deleteHandler true uA envFailA).result = Except.error e)) ∧
    ((deleteHandler true uB envPicFail).trace =
       [Ev.snapshotProfile uB.picture, Ev.snapshotArticles envPicFail.articlesPictures,
        Ev.destroyUser uB.id, Ev.deleteBlob "pic.png"] ∧
     (deleteHandler true uB envPicFail).recordPresent = false ∧
     (∀ q ∈ envPicFail.articlesPictures, q ≠ "pic.png" →
        Ev.deleteBlob q ∉ (deleteHandler true uB envPicFail).trace) ∧
     Ev.deleteDocs uB.id ∉ (deleteHandler true uB envPicFail).trace ∧
     (deleteHandler true uB envPicFail).result =
       Except.error ("deleteFile failed: " ++ "pic.png")) :=
  ⟨⟨rfl, by decide, rfl, rfl, rfl, rfl⟩,
   (c1_blob_failure_isolation uA envFailA rfl).1 "a"
     (fun q hq => Option.noConfusion hq) (by decide) rfl,
   (c1_blob_failure_isolation uB envPicFail rfl).2 "pic.png" rfl rfl⟩

/-- C2 counterexample: the document bulk deletion fails after the
relational record was successfully destroyed, and the caller observes a
hard 500 failure instead of overall success. -/
theorem c2_post_destroy_failure_counterexample :
    (deleteRoute true uA envDocsFail).2.status = 500 ∧
    (deleteRoute true uA envDocsFail).2.sends = 1 ∧
    (deleteRoute true uA envDocsFail).1.recordPresent = false := by
  decide

/-- C2 (amended): a failure at any step of the deletion route aborts the
remaining steps and is reported to the caller as a 500 hard failure; a
failure after the relational destroy does not restore the record (it
stays deleted), but the caller observes failure, not success; only a
completed run answers success, and a destroy failure is the error
"destroy failed". -/
theorem c2_failure_reporting (present : Bool) (u : UserRecord) (env : DeleteEnv) :
    (∀ e, (deleteHandler present u env).result = Except.error e →
      (deleteRoute present u env).2.status = 500 ∧
      (deleteRoute present u env).2.body = "error: " ++ e) ∧
    ((deleteHandler present u env).result = Except.ok () →
      (deleteRoute present u env).2.status = 200 ∧
      (deleteRoute present u env).2.sends = 1) ∧
    (env.destroyOk = true → (deleteHandler present u env).recordPresent = false) ∧
    (env.destroyOk = false →
      (deleteHandler present u env).result = Except.error "destroy failed") := by
  refine ⟨?_, ?_, ?_, ?_⟩
  · intro e he
    simp [deleteRoute, he, errorMiddleware, resp0]
  · intro hok
    simp [deleteRoute, hok, logoutRespond, resp0]
  · intro hd
    exact deleteHandler_recordPresent present u env hd
  · intro hd
    simp [deleteHandler, hd]

/-- C2 witness: the reporting statement instantiated on the fixture whose
document deletion fails: the handler error is propagated as a 500. -/
theorem c2_failure_reporting_witness :
    (deleteHandler true uA envDocsFail).result = Except.error "deleteMany failed" ∧
    ((deleteRoute true uA envDocsFail).2.status = 500 ∧
     (deleteRoute true uA envDocsFail).2.body = "error: " ++ "deleteMany failed") :=
  ⟨rfl, (c2_failure_reporting true uA envDocsFail).1 "deleteMany failed" rfl⟩

/-- C3 counterexample: the error middleware's response body varies with the
internal error message and literally contains it, refuting the claim that
the response is generic and free of internal details. -/
theorem c3_leak_counterexample :
    (errorMiddleware ⟨"secret detail", "stk"⟩ resp0).1.body ≠
      (errorMiddleware ⟨"other", "stk"⟩ resp0).1.body ∧
    (errorMiddleware ⟨"secret detail", "stk"⟩ resp0).1.body =
      "error: " ++ "secret detail" :=
  ⟨by decide, rfl⟩

/-- C3 (amended): an uncaught internal error reaching the middleware with
the status code still 200 yields one 500 response whose body carries the
error's message (internal details are exposed to the caller; the stack is
not sent), while a detailed entry with level, message, stack and label is
written to the error log. -/
theorem c3_error_response_and_log (err : JsError) (res : Resp) (h : res.status = 200) :
    (errorMiddleware err res).1.status = 500 ∧
    (errorMiddleware err res).1.body = "error: " ++ err.message ∧
    (errorMiddleware err res).1.sends = res.sends + 1 ∧
    (errorMiddleware err res).2 = ⟨"error", err.message, err.stack, "express"⟩ := by
  simp [errorMiddleware, h]

/-- C3 witness: the amended statement at a concrete error and a fresh
response object. -/
theorem c3_error_response_and_log_witness :
    resp0.status = 200 ∧
    ((errorMiddleware ⟨"boom", "trace"⟩ resp0).1.status = 500 ∧
     (errorMiddleware ⟨"boom", "trace"⟩ resp0).1.body = "error: " ++ "boom" ∧
     (errorMiddleware ⟨"boom", "trace"⟩ resp0).1.sends = resp0.sends + 1 ∧
     (errorMiddleware ⟨"boom", "trace"⟩ resp0).2 = ⟨"error", "boom", "trace", "express"⟩) :=
  ⟨rfl, c3_error_response_and_log ⟨"boom", "trace"⟩ resp0 rfl⟩

/-- All external calls of a deletion run succeed for this user. -/
def envAllOkFor (u : UserRecord) (env : DeleteEnv) : Prop :=
  env.destroyOk = true ∧ env.deleteManyOk = true ∧ env.logoutOk = true ∧
  (∀ p, u.picture = some p → env.deleteFileOk p = true) ∧
  (∀ p ∈ env.articlesPictures, env.deleteFileOk p = true)

/-- C6: re-running the deletion route for an identity whose relational row
is already absent at the destroy step succeeds (the plain SQL DELETE
resolves on zero affected rows), and the whole outcome is identical to a
run with the row still present: the re-run is idempotent, "not found" is
not a hard failure. -/
theorem c6_rerun_idempotent (u : UserRecord) (env : DeleteEnv) (h : envAllOkFor u env) :
    (deleteHandler false u env).result = Except.ok () ∧
    deleteHandler false u env = deleteHandler true u env := by
  obtain ⟨h1, h2, h3, h4, h5⟩ := h
  have hfind : env.articlesPictures.find? (fun q => !env.deleteFileOk q) = none := by
    rw [List.find?_eq_none]
    intro x hx
    simp [h5 x hx]
  constructor
  · rw [deleteHandler_eq_stage false u env h1 h4]
    exact deleteArticlesStage_ok u env _ hfind h2 h3
  · exact deleteHandler_present_irrelevant u env h1 false true

/-- C6 witness: the idempotence statement on the all-success fixture with
a profile picture and two article blobs. -/
theorem c6_rerun_idempotent_witness :
    envAllOkFor uB envOk ∧
    ((deleteHandler false uB envOk).result = Except.ok () ∧
     deleteHandler false uB envOk = deleteHandler true uB envOk) :=
  ⟨⟨rfl, rfl, rfl, fun _ _ => rfl, fun _ _ => rfl⟩,
   c6_rerun_idempotent uB envOk ⟨rfl, rfl, rfl, fun _ _ => rfl, fun _ _ => rfl⟩⟩

/-- C8: the 48-hour absolute session lifetime is enforced twice: a session
created at `createdAt` is evicted by the store once 48 hours have passed
(`storeLoad` finds nothing), and the Auth Gate rejects such a session
even when handed the still-stored record directly, before eviction. -/
theorem c8_session_ttl_two_layers (identityId createdAt now : Nat)
    (h : createdAt + sessionCookieMaxAgeMs ≤ now) :
    storeLoad now (createSession identityId createdAt) = none ∧
    isLoggedIn now (some (createSession identityId createdAt)) = false := by
  constructor
  · unfold storeLoad createSession
    rw [if_neg (show ¬ now < createdAt + sessionCookieMaxAgeMs by omega)]
  · unfold isLoggedIn createSession
    simp only [decide_eq_false_iff_not]
    show ¬ now < createdAt + sessionCookieMaxAgeMs
    omega

/-- C8 witness: a session created at time 0 is rejected by both layers
exactly 48 hours later. -/
theorem c8_session_ttl_two_layers_witness :
    0 + sessionCookieMaxAgeMs ≤ 172800000 ∧
    (storeLoad 172800000 (createSession 5 0) = none ∧
     isLoggedIn 172800000 (some (createSession 5 0)) = false) :=
  ⟨by decide, c8_session_ttl_two_layers 5 0 172800000 (by decide)⟩

/-- C5: a state-changing request whose supplied CSRF token is missing or
does not verify against the session's secret is rejected by `csurf`
before the routers run: for every possible router function, the
application state and the session are unchanged (no handler side effect)
and the caller receives the middleware's single error response. -/
theorem c5_csrf_rejects_before_handler {σ : Type} (routes : PRequest → Sess → σ → Routed σ)
    (upstream : Except String String) (req : PRequest) (sess : Sess) (st : σ)
    (hm : csrfIgnores req.method = false)
    (ht : verifyToken sess.csrfSecret req.suppliedToken = false) :
    (handleRequest routes upstream req sess st).st = st ∧
    (handleRequest routes upstream req sess st).sess = some sess ∧
    (handleRequest routes upstream req sess st).resp =
      ⟨500, "error: " ++ "invalid csrf token", [], 1⟩ := by
  unfold handleRequest
  rw [if_pos ⟨hm, ht⟩]
  exact ⟨rfl, rfl, rfl⟩

/-- Router fixture that mutates the state and completes normally. -/
def mutRoutes : PRequest → Sess → Nat → Routed Nat :=
  fun _ s n => ⟨n + 1, some s, RouteOut.ok 200 "changed"⟩

/-- C5 witness: a POST with no CSRF token against a state-mutating router
leaves the state at 7 and the session intact, answering only the 500. -/
theorem c5_csrf_rejects_before_handler_witness :
    csrfIgnores Method.POST = false ∧
    verifyToken "sec" none = false ∧
    ((handleRequest mutRoutes (Except.ok "front") ⟨Method.POST, none, "salt"⟩
        ⟨"sec", some 1⟩ 7).st = 7 ∧
     (handleRequest mutRoutes (Except.ok "front") ⟨Method.POST, none, "salt"⟩
        ⟨"sec", some 1⟩ 7).sess = some ⟨"sec", some 1⟩ ∧
     (handleRequest mutRoutes (Except.ok "front") ⟨Method.POST, none, "salt"⟩
        ⟨"sec", some 1⟩ 7).resp = ⟨500, "error: " ++ "invalid csrf token", [], 1⟩) :=
  ⟨rfl, rfl,
   c5_csrf_rejects_before_handler mutRoutes (Except.ok "front")
     ⟨Method.POST, none, "salt"⟩ ⟨"sec", some 1⟩ 7 rfl rfl⟩

/-- Router fixture that matches no route. -/
def noMatchRoutes : PRequest → Sess → Nat → Routed Nat :=
  fun _ s n => ⟨n, some s, RouteOut.noMatch⟩

/-- C7 counterexample: a GET that falls through to the frontend catch-all
while the upstream fetch fails receives zero responses, refuting
"exactly one response for every request". -/
theorem c7_zero_response_counterexample :
    (handleRequest noMatchRoutes (Except.error "ECONNREFUSED")
      ⟨Method.GET, none, "s"⟩ ⟨"sec", none⟩ 0).resp.sends = 0 := rfl

/-- C7 (amended): whenever the frontend upstream fetch succeeds, every
request — matched, erroring, CSRF-rejected or unmatched — yields exactly
one response; only the catch-all with a failing upstream produces none. -/
theorem c7_exactly_one_response {σ : Type} (routes : PRequest → Sess → σ → Routed σ)
    (b : String) (req : PRequest) (sess : Sess) (st : σ) :
    (handleRequest routes (Except.ok b) req sess st).resp.sends = 1 := by
  unfold handleRequest
  dsimp only
  split
  · rfl
  · split
    · rfl
    · rfl
    · split
      · rfl
      · rfl

/-- Router fixture that completes normally without touching the state. -/
def okRoutes : PRequest → Sess → Nat → Routed Nat :=
  fun _ s n => ⟨n, some s, RouteOut.ok 200 "ok"⟩

/-- C9 counterexample: the response to a CSRF-rejected POST carries no
XSRF-TOKEN cookie — `csurf` calls `next(err)` before the `app.all`
token-setting middleware — refuting "refreshed on every response". -/
theorem c9_no_refresh_counterexample :
    (handleRequest okRoutes (Except.ok "front") ⟨Method.POST, none, "salt"⟩
      ⟨"sec", some 1⟩ 0).resp.cookies = [] := rfl

lemma handleRequest_sess_cases {σ : Type} (routes : PRequest → Sess → σ → Routed σ)
    (upstream : Except String String)
    (hroutes : ∀ q s x, (routes q s x).sess = some s ∨ (routes q s x).sess = none)
    (req : PRequest) (sess : Sess) (st : σ) :
    (handleRequest routes upstream req sess st).sess = some sess ∨
    (handleRequest routes upstream req sess st).sess = none := by
  unfold handleRequest
  dsimp only
  split
  · exact Or.inl rfl
  · split
    · exact hroutes req sess st
    · exact hroutes req sess st
    · split
      · exact Or.inl rfl
      · exact Or.inl rfl

lemma runRequests_dead {σ : Type} (routes : PRequest → Sess → σ → Routed σ)
    (upstream : Except String String) :
    ∀ (reqs : List PRequest) (st : σ),
      runRequests routes upstream reqs none st = (none, st)
  | [], _ => rfl
  | _ :: rest, st => runRequests_dead routes upstream rest st

/-- C9 (amended): the CSRF secret bound to a session never changes while
the session lives — across any sequence of handled requests the surviving
session keeps its secret, so any token minted for it earlier still
verifies (one token for the whole lifetime, no per-request rotation) —
and the XSRF-TOKEN cookie carrying a freshly minted token is set on every
response except those the CSRF guard itself rejects. -/
theorem c9_token_stable_cookie_refreshed {σ : Type}
    (routes : PRequest → Sess → σ → Routed σ) (upstream : Except String String)
    (hroutes : ∀ q s x, (routes q s x).sess = some s ∨ (routes q s x).sess = none) :
    (∀ (reqs : List PRequest) (sess : Sess) (st : σ) (s' : Sess),
      (runRequests routes upstream reqs (some sess) st).1 = some s' →
      s'.csrfSecret = sess.csrfSecret ∧
      ∀ salt, verifyToken s'.csrfSecret (some (makeToken sess.csrfSecret salt)) = true) ∧
    (∀ (req : PRequest) (sess : Sess) (st : σ),
      (csrfIgnores req.method = true ∨
        verifyToken sess.csrfSecret req.suppliedToken = true) →
      (handleRequest routes upstream req sess st).resp.cookies =
        [("XSRF-TOKEN", (makeToken sess.csrfSecret req.freshSalt).salt ++ ";" ++
          (makeToken sess.csrfSecret req.freshSalt).mac)]) := by
  have hsecret : ∀ (reqs : List PRequest) (sess : Sess) (st : σ) (s' : Sess),
      (runRequests routes upstream reqs (some sess) st).1 = some s' →
      s'.csrfSecret = sess.csrfSecret := by
    intro reqs
    induction reqs with
    | nil =>
      intro sess st s' h
      unfold runRequests at h
      cases h
      rfl
    | cons r rest ih =>
      intro sess st s' h
      unfold runRequests at h
      dsimp only at h
      rcases handleRequest_sess_cases routes upstream hroutes r sess st with hs | hs
      · rw [hs] at h
        exact ih sess _ s' h
      · rw [hs] at h
        rw [runRequests_dead routes upstream rest _] at h
        exact Option.noConfusion h
  constructor
  · intro reqs sess st s' h
    refine ⟨hsecret reqs sess st s' h, ?_⟩
    intro salt
    rw [hsecret reqs sess st s' h]
    simp [verifyToken, makeToken]
  · intro req sess st h
    have hcond : ¬(csrfIgnores req.method = false ∧
        verifyToken sess.csrfSecret req.suppliedToken = false) := by
      rcases h with h | h <;> simp [h]
    unfold handleRequest
    rw [if_neg hcond]
    dsimp only
    split
    · rfl
    · rfl
    · split
      · unfold frontendFallback
        split
        · rfl
        · rfl
      · rfl

/-- C9 witness: for a router that keeps the session, a GET response
carries the freshly minted XSRF-TOKEN cookie. -/
theorem c9_token_stable_cookie_refreshed_witness :
    (∀ q s (x : Nat), (okRoutes q s x).sess = some s ∨ (okRoutes q s x).sess = none) ∧
    (handleRequest okRoutes (Except.ok "front") ⟨Method.GET, none, "s1"⟩
        ⟨"sec", none⟩ 0).resp.cookies =
      [("XSRF-TOKEN", (makeToken "sec" "s1").salt ++ ";" ++ (makeToken "sec" "s1").mac)] :=
  ⟨fun _ _ _ => Or.inl rfl,
   (c9_token_stable_cookie_refreshed okRoutes (Except.ok "front")
      (fun _ _ _ => Or.inl rfl)).2 ⟨Method.GET, none, "s1"⟩ ⟨"sec", none⟩ 0 (Or.inl rfl)⟩

/-- C10: the card route creates a payment-provider customer only when the
stored customer reference is absent; an existing reference is passed to
`createCard` and never overwritten, and in both cases the stored card
reference ends up being exactly the id `createCard` returned. -/
theorem c10_card_attach (u : UserRecord) (token : String) (env : StripeEnv) :
    (jsFalsyStr u.stripe_customer_id = false →
      (∀ e, StripeCall.customer e ∉ (cardHandler u token env).2) ∧
      (cardHandler u token env).1.stripe_customer_id = u.stripe_customer_id ∧
      (cardHandler u token env).1.stripe_card_id =
        some (env.createCard token (u.stripe_customer_id.getD ""))) ∧
    (jsFalsyStr u.stripe_customer_id = true →
      StripeCall.customer u.email ∈ (cardHandler u token env).2 ∧
      (cardHandler u token env).1.stripe_customer_id = some (env.createCustomer u.email) ∧
      (cardHandler u token env).1.stripe_card_id =
        some (env.createCard token (env.createCustomer u.email))) := by
  constructor
  · intro h
    unfold cardHandler
    rw [if_neg (by simp [h])]
    refine ⟨?_, rfl, rfl⟩
    intro e he
    simp at he
  · intro h
    unfold cardHandler
    rw [if_pos h]
    exact ⟨List.mem_cons_self _ _, rfl, rfl⟩

/-- User fixture with an existing Stripe customer reference. -/
def uC : UserRecord := ⟨3, "c@mail", "fn", "ln", none, some "cus_1", none⟩

/-- Stripe environment fixture. -/
def envS : StripeEnv := ⟨fun _ => "cus_new", fun _ c => "card_" ++ c⟩

/-- C10 witness: with a stored customer reference "cus_1", no customer is
created, the reference is preserved, and the stored card id is the one
`createCard` returned for it. -/
theorem c10_card_attach_witness :
    jsFalsyStr uC.stripe_customer_id = false ∧
    ((∀ e, StripeCall.customer e ∉ (cardHandler uC "tok" envS).2) ∧
     (cardHandler uC "tok" envS).1.stripe_customer_id = uC.stripe_customer_id ∧
     (cardHandler uC "tok" envS).1.stripe_card_id =
       some (envS.createCard "tok" (uC.stripe_customer_id.getD ""))) :=
  ⟨rfl, (c10_card_attach uC "tok" envS).1 rfl⟩
